import Mathlib

/-!
Shallow embedding of `src/windows/webview.cc` (flutter-webview-windows).

The file is a thin adapter between a host compositor and the WebView2
control object.  We model the mutable state the operations touch
(`virtual_keys_`, `last_cursor_pos_`) explicitly, and every native call the
code makes (`SendMouseInput`, `put_Bounds`, callbacks into the host, ...)
as an element of an emitted trace.  Results of native calls that the code
branches on (HRESULTs, availability of `settings2_`) are passed in as
oracle parameters.

C++ `double` values are modelled as rationals; `static_cast<LONG>` and
`static_cast<short>` on a floating value truncate toward zero (the
out-of-range case, undefined behaviour in C++, is modelled as mathematical
truncation resp. 16-bit wraparound).
-/

namespace WebviewWindows

/-- The COM success code `S_OK` (an HRESULT is modelled as an integer). -/
def S_OK : Int := 0

/-- Truncation toward zero of a rational, the semantics of
`static_cast<LONG>(double)` for in-range values. -/
def truncQ (q : ℚ) : ℤ :=
  if 0 ≤ q then ⌊q⌋ else ⌈q⌉

/-- Reduction of an integer into the 16-bit signed range, the semantics of
`static_cast<short>` (modelling the out-of-range case as wraparound). -/
def toShort (z : ℤ) : ℤ :=
  (z + 32768) % 65536 - 32768

/-- A Win32 `POINT`. -/
structure Point where
  x : Int
  y : Int
deriving DecidableEq, Repr

/-- A Win32 `RECT`. -/
structure RECT where
  left : Int
  top : Int
  right : Int
  bottom : Int
deriving DecidableEq, Repr

/-- Modelled from the spec: the `VirtualKeyState` container declared in
`webview.h` (not under `src/`).  Per the spec's description of pointer
forwarding it tracks the left/right/middle mouse-button flags of the
`COREWEBVIEW2_MOUSE_EVENT_VIRTUAL_KEYS` state passed to `SendMouseInput`. -/
structure VirtualKeys where
  isLeftButtonDown : Bool
  isRightButtonDown : Bool
  isMiddleButtonDown : Bool
deriving DecidableEq, Repr

/-- `VirtualKeyState::set_isLeftButtonDown`. -/
def VirtualKeys.set_isLeftButtonDown (k : VirtualKeys) (is_down : Bool) : VirtualKeys :=
  { k with isLeftButtonDown := is_down }

/-- `VirtualKeyState::set_isRightButtonDown`. -/
def VirtualKeys.set_isRightButtonDown (k : VirtualKeys) (is_down : Bool) : VirtualKeys :=
  { k with isRightButtonDown := is_down }

/-- `VirtualKeyState::set_isMiddleButtonDown`. -/
def VirtualKeys.set_isMiddleButtonDown (k : VirtualKeys) (is_down : Bool) : VirtualKeys :=
  { k with isMiddleButtonDown := is_down }

/-- `VirtualKeyState::state()`: the flag set handed to `SendMouseInput`. -/
def VirtualKeys.state (k : VirtualKeys) : VirtualKeys := k

/-- `COREWEBVIEW2_MOUSE_EVENT_VIRTUAL_KEYS_NONE`: no virtual keys. -/
def VIRTUAL_KEYS_NONE : VirtualKeys :=
  { isLeftButtonDown := false, isRightButtonDown := false, isMiddleButtonDown := false }

/-! `COREWEBVIEW2_MOUSE_EVENT_KIND` values, from the WebView2 SDK (the enum
reuses the Win32 `WM_*` mouse message numbers). -/

def MOUSE_EVENT_KIND_MOVE : Int := 0x0200

def MOUSE_EVENT_KIND_LEFT_BUTTON_DOWN : Int := 0x0201

def MOUSE_EVENT_KIND_LEFT_BUTTON_UP : Int := 0x0202

def MOUSE_EVENT_KIND_RIGHT_BUTTON_DOWN : Int := 0x0204

def MOUSE_EVENT_KIND_RIGHT_BUTTON_UP : Int := 0x0205

def MOUSE_EVENT_KIND_MIDDLE_BUTTON_DOWN : Int := 0x0207

def MOUSE_EVENT_KIND_MIDDLE_BUTTON_UP : Int := 0x0208

def MOUSE_EVENT_KIND_WHEEL : Int := 0x020A

def MOUSE_EVENT_KIND_X_BUTTON_DOWN : Int := 0x020B

def MOUSE_EVENT_KIND_X_BUTTON_UP : Int := 0x020C

def MOUSE_EVENT_KIND_HORIZONTAL_WHEEL : Int := 0x020E

/-- One call to `ICoreWebView2CompositionController::SendMouseInput`:
event kind, virtual-key state, mouse data (wheel offset), and point. -/
structure MouseEvent where
  eventKind : Int
  virtualKeys : VirtualKeys
  mouseData : Int
  point : Point
deriving DecidableEq, Repr

/-- The mutable `Webview` members the input operations read and write. -/
structure WebviewState where
  virtual_keys_ : VirtualKeys
  last_cursor_pos_ : Point
deriving DecidableEq, Repr

/-- Modelled from the spec: the `WebviewPointerButton` enum of `webview.h`
(not under `src/`).  The claims name `Primary`, `Secondary`, `Tertiary`;
`None` stands for the values outside those three, which
`Webview::SetPointerButtonState` handles in its `default:` branch. -/
inductive WebviewPointerButton
  | None
  | Primary
  | Secondary
  | Tertiary
deriving DecidableEq, Repr

/-- Modelled from the spec: the `WebviewLoadingState` enum of `webview.h`
(not under `src/`); the values used by `webview.cc`. -/
inductive WebviewLoadingState
  | Loading
  | NavigationCompleted
deriving DecidableEq, Repr

/-- `Webview::SetCursorPos(double x, double y)` (webview.cc:214-224):
truncate `x`/`y` to a `POINT`, record it in `last_cursor_pos_`, and send a
mouse-move event with the current virtual-key state and mouse data 0. -/
def SetCursorPos (s : WebviewState) (x y : ℚ) : WebviewState × List MouseEvent :=
  let point : Point := { x := truncQ x, y := truncQ y }
  let s' : WebviewState := { s with last_cursor_pos_ := point }
  (s',
   [{ eventKind := MOUSE_EVENT_KIND_MOVE, virtualKeys := s'.virtual_keys_.state,
      mouseData := 0, point := point }])

/-- `Webview::SetPointerButtonState(button, is_down)` (webview.cc:226-250):
update the matching virtual-key flag and send one mouse event with the
matching button-down/up kind (kind 0 in the `default:` branch), the updated
virtual-key state, and the last cursor position. -/
def SetPointerButtonState (s : WebviewState) (button : WebviewPointerButton)
    (is_down : Bool) : WebviewState × List MouseEvent :=
  let (keys, kind) :=
    match button with
    | .Primary =>
        (s.virtual_keys_.set_isLeftButtonDown is_down,
         if is_down then MOUSE_EVENT_KIND_LEFT_BUTTON_DOWN
         else MOUSE_EVENT_KIND_LEFT_BUTTON_UP)
    | .Secondary =>
        (s.virtual_keys_.set_isRightButtonDown is_down,
         if is_down then MOUSE_EVENT_KIND_RIGHT_BUTTON_DOWN
         else MOUSE_EVENT_KIND_RIGHT_BUTTON_UP)
    | .Tertiary =>
        (s.virtual_keys_.set_isMiddleButtonDown is_down,
         if is_down then MOUSE_EVENT_KIND_MIDDLE_BUTTON_DOWN
         else MOUSE_EVENT_KIND_MIDDLE_BUTTON_UP)
    | _ => (s.virtual_keys_, 0)
  ({ s with virtual_keys_ := keys },
   [{ eventKind := kind, virtualKeys := keys.state, mouseData := 0,
      point := s.last_cursor_pos_ }])

/-- `kScrollMultiplier` (webview.cc:254). -/
def kScrollMultiplier : ℚ := 6

/-- `Webview::SendScroll(double delta, bool horizontal)` (webview.cc:252-281):
emulate a held X button around the wheel event — X-button-down with no
virtual keys, then the (horizontal or vertical) wheel event with offset
`static_cast<short>(delta * 6)` and the current virtual-key state, then
X-button-up with no virtual keys, all at the last cursor position. -/
def SendScroll (s : WebviewState) (delta : ℚ) (horizontal : Bool) :
    WebviewState × List MouseEvent :=
  let offset : Int := toShort (truncQ (delta * kScrollMultiplier))
  (s,
   [{ eventKind := MOUSE_EVENT_KIND_X_BUTTON_DOWN, virtualKeys := VIRTUAL_KEYS_NONE,
      mouseData := 0, point := s.last_cursor_pos_ },
    { eventKind :=
        if horizontal then MOUSE_EVENT_KIND_HORIZONTAL_WHEEL else MOUSE_EVENT_KIND_WHEEL,
      virtualKeys := s.virtual_keys_.state, mouseData := offset,
      point := s.last_cursor_pos_ },
    { eventKind := MOUSE_EVENT_KIND_X_BUTTON_UP, virtualKeys := VIRTUAL_KEYS_NONE,
      mouseData := 0, point := s.last_cursor_pos_ }])

/-- `Webview::SetScrollDelta(double delta_x, double delta_y)`
(webview.cc:283-290): horizontal scroll when `delta_x != 0.0`, then
vertical scroll when `delta_y != 0.0`. -/
def SetScrollDelta (s : WebviewState) (delta_x delta_y : ℚ) :
    WebviewState × List MouseEvent :=
  let r1 := if delta_x ≠ 0 then SendScroll s delta_x true else (s, [])
  let r2 := if delta_y ≠ 0 then SendScroll r1.1 delta_y false else (r1.1, [])
  (r2.1, r1.2 ++ r2.2)

/-- Host-visible effects of `Webview::SetSurfaceSize` (webview.cc:180-200). -/
inductive SurfaceEffect
  | surfaceSetSize (width height : Nat)
  | putBounds (bounds : RECT)
  | logBoundsFailed
  | surfaceSizeChanged (width height : Nat)
deriving DecidableEq, Repr

/-- `Webview::SetSurfaceSize(size_t width, size_t height)`
(webview.cc:180-200).  When `surface_` is set: resize the visual, call
`put_Bounds`; when that call is not `S_OK`, write an error line to stderr
(and continue); then invoke the surface-size-changed callback when set.
`put_Bounds_result` is the HRESULT returned by the native call;
`callbackSet` is whether `surface_size_changed_callback_` is set. -/
def SetSurfaceSize (hasSurface : Bool) (put_Bounds_result : Int)
    (callbackSet : Bool) (width height : Nat) : List SurfaceEffect :=
  if hasSurface then
    [SurfaceEffect.surfaceSetSize width height,
     SurfaceEffect.putBounds
       { left := 0, top := 0, right := (width : Int), bottom := (height : Int) }]
    ++ (if put_Bounds_result ≠ S_OK then [SurfaceEffect.logBoundsFailed] else [])
    ++ (if callbackSet then [SurfaceEffect.surfaceSizeChanged width height] else [])
  else []

/-- `Webview::ClearCookies()` (webview.cc:202-205): true iff the DevTools
protocol call `Network.clearBrowserCookies` returned `S_OK`.
`call_result` is the HRESULT of `CallDevToolsProtocolMethod`. -/
def ClearCookies (call_result : Int) : Bool :=
  decide (call_result = S_OK)

/-- `Webview::SetUserAgent(const std::string&)` (webview.cc:207-212): when
`settings2_` is available, true iff `put_UserAgent` returned `S_OK`;
otherwise false. -/
def SetUserAgent (settings2_available : Bool) (put_UserAgent_result : Int) : Bool :=
  if settings2_available then decide (put_UserAgent_result = S_OK) else false

/-- A call into one of the host callbacks re-exposed by
`Webview::RegisterEventHandlers` (webview.cc:88-178). -/
inductive HostEvent
  | loadingStateChanged (state : WebviewLoadingState)
  | urlChanged (url : String)
  | documentTitleChanged (title : String)
  | cursorChanged (cursor : Int)
  | focusChanged (focused : Bool)
deriving DecidableEq, Repr

/-- The `ContentLoading` handler (webview.cc:89-99): invoke the
loading-state callback (when set) with `Loading`; return `S_OK`. -/
def contentLoadingHandler (callbackSet : Bool) : Int × List HostEvent :=
  (S_OK,
   if callbackSet then [HostEvent.loadingStateChanged WebviewLoadingState.Loading]
   else [])

/-- The `NavigationCompleted` handler (webview.cc:101-112): invoke the
loading-state callback (when set) with `NavigationCompleted`; return `S_OK`. -/
def navigationCompletedHandler (callbackSet : Bool) : Int × List HostEvent :=
  (S_OK,
   if callbackSet then
     [HostEvent.loadingStateChanged WebviewLoadingState.NavigationCompleted]
   else [])

/-- The `SourceChanged` handler (webview.cc:114-126): when the URL callback
is set and `get_Source` returns `S_OK`, invoke it with the URL; return
`S_OK`. -/
def sourceChangedHandler (callbackSet : Bool) (get_Source_result : Int)
    (url : String) : Int × List HostEvent :=
  (S_OK,
   if callbackSet then
     if get_Source_result = S_OK then [HostEvent.urlChanged url] else []
   else [])

/-- The `DocumentTitleChanged` handler (webview.cc:128-141): when the title
callback is set and `get_DocumentTitle` returns `S_OK`, invoke it with the
title; return `S_OK`. -/
def documentTitleChangedHandler (callbackSet : Bool)
    (get_DocumentTitle_result : Int) (title : String) : Int × List HostEvent :=
  (S_OK,
   if callbackSet then
     if get_DocumentTitle_result = S_OK then [HostEvent.documentTitleChanged title]
     else []
   else [])

/-- The `CursorChanged` handler (webview.cc:143-155): when the cursor
callback is set and `get_Cursor` returns `S_OK`, invoke it with the cursor
handle; return `S_OK`. -/
def cursorChangedHandler (callbackSet : Bool) (get_Cursor_result : Int)
    (cursor : Int) : Int × List HostEvent :=
  (S_OK,
   if callbackSet then
     if get_Cursor_result = S_OK then [HostEvent.cursorChanged cursor] else []
   else [])

/-- The `GotFocus` handler (webview.cc:157-166): invoke the focus callback
(when set) with `true`; return `S_OK`. -/
def gotFocusHandler (callbackSet : Bool) : Int × List HostEvent :=
  (S_OK, if callbackSet then [HostEvent.focusChanged true] else [])

/-- The `LostFocus` handler (webview.cc:168-177): invoke the focus callback
(when set) with `false`; return `S_OK`. -/
def lostFocusHandler (callbackSet : Bool) : Int × List HostEvent :=
  (S_OK, if callbackSet then [HostEvent.focusChanged false] else [])

/-- One synthetic-input operation of the `Webview`, for trace reasoning. -/
inductive Op
  | setCursorPos (x y : ℚ)
  | setPointerButtonState (button : WebviewPointerButton) (is_down : Bool)
  | sendScroll (delta : ℚ) (horizontal : Bool)
  | setScrollDelta (delta_x delta_y : ℚ)

/-- Apply one operation to the state, yielding the new state and the mouse
events it sends. -/
def applyOp (s : WebviewState) : Op → WebviewState × List MouseEvent
  | .setCursorPos x y => SetCursorPos s x y
  | .setPointerButtonState b d => SetPointerButtonState s b d
  | .sendScroll delta h => SendScroll s delta h
  | .setScrollDelta dx dy => SetScrollDelta s dx dy

/-- Run a sequence of operations from a state. -/
def run (s : WebviewState) : List Op → WebviewState
  | [] => s
  | op :: rest => run (applyOp s op).1 rest

/-- The cursor position recorded by the most recent `setCursorPos` of a
trace, or the starting position when there is none. -/
def lastPos (p : Point) : List Op → Point
  | [] => p
  | .setCursorPos x y :: rest => lastPos { x := truncQ x, y := truncQ y } rest
  | .setPointerButtonState _ _ :: rest => lastPos p rest
  | .sendScroll _ _ :: rest => lastPos p rest
  | .setScrollDelta _ _ :: rest => lastPos p rest

/-! Helper lemmas shared by the claim theorems. -/

theorem setPointerButtonState_fst_pos (s : WebviewState) (b : WebviewPointerButton)
    (d : Bool) :
    (SetPointerButtonState s b d).1.last_cursor_pos_ = s.last_cursor_pos_ := by
  cases b <;> rfl

theorem setPointerButtonState_events_pos (s : WebviewState) (b : WebviewPointerButton)
    (d : Bool) :
    (SetPointerButtonState s b d).2.map MouseEvent.point = [s.last_cursor_pos_] := by
  cases b <;> rfl

theorem setScrollDelta_fst (s : WebviewState) (dx dy : ℚ) :
    (SetScrollDelta s dx dy).1 = s := by
  by_cases hdx : dx = 0 <;> by_cases hdy : dy = 0 <;>
    simp [SetScrollDelta, SendScroll, hdx, hdy]

theorem setScrollDelta_events_pos (s : WebviewState) (dx dy : ℚ) :
    (SetScrollDelta s dx dy).2.map MouseEvent.point =
      (SetScrollDelta s dx dy).2.map (fun _ => s.last_cursor_pos_) := by
  by_cases hdx : dx = 0 <;> by_cases hdy : dy = 0 <;>
    simp [SetScrollDelta, SendScroll, hdx, hdy]

theorem run_last_cursor_pos (ops : List Op) : ∀ s0 : WebviewState,
    (run s0 ops).last_cursor_pos_ = lastPos s0.last_cursor_pos_ ops := by
  induction ops with
  | nil => intro s0; rfl
  | cons op rest ih =>
    intro s0
    simp only [run]
    rw [ih]
    cases op with
    | setCursorPos x y => rfl
    | setPointerButtonState b d =>
      show lastPos (SetPointerButtonState s0 b d).1.last_cursor_pos_ rest
        = lastPos s0.last_cursor_pos_ rest
      rw [setPointerButtonState_fst_pos]
    | sendScroll delta h => rfl
    | setScrollDelta dx dy =>
      show lastPos (SetScrollDelta s0 dx dy).1.last_cursor_pos_ rest
        = lastPos s0.last_cursor_pos_ rest
      rw [setScrollDelta_fst]

/-- C1: For every scroll delta and orientation, `SendScroll` emits exactly
three mouse-input events in order: X-button-down with no virtual keys at the
last cursor position, the wheel event (horizontal wheel iff `horizontal`,
with the current virtual-key state and offset `delta * 6` truncated to a
16-bit integer), and X-button-up with no virtual keys at the same position. -/
theorem C1_sendScroll_wheel_synthesis (s : WebviewState) (delta : ℚ)
    (horizontal : Bool) :
    (SendScroll s delta horizontal).2 =
      [{ eventKind := MOUSE_EVENT_KIND_X_BUTTON_DOWN, virtualKeys := VIRTUAL_KEYS_NONE,
         mouseData := 0, point := s.last_cursor_pos_ },
       { eventKind := if horizontal then MOUSE_EVENT_KIND_HORIZONTAL_WHEEL
                      else MOUSE_EVENT_KIND_WHEEL,
         virtualKeys := s.virtual_keys_.state,
         mouseData := toShort (truncQ (delta * 6)),
         point := s.last_cursor_pos_ },
       { eventKind := MOUSE_EVENT_KIND_X_BUTTON_UP, virtualKeys := VIRTUAL_KEYS_NONE,
         mouseData := 0, point := s.last_cursor_pos_ }] := rfl

/-- C2 counterexample: with a failing `put_Bounds` (HRESULT 1 ≠ `S_OK`),
`SetSurfaceSize` still invokes the surface-size-changed callback, so the
failure is not propagated and the operation continues. -/
theorem C2_counterexample :
    (1 : Int) ≠ S_OK ∧
      SurfaceEffect.surfaceSizeChanged 2 3 ∈ SetSurfaceSize true 1 true 2 3 := by
  decide

/-- C2 (amended): when the native `put_Bounds` call does not return `S_OK`,
`SetSurfaceSize` absorbs the failure — it logs an error message and still
invokes the surface-size-changed callback (when set); no result code is
propagated to the host (`SetSurfaceSize` returns void). -/
theorem C2_put_Bounds_failure_absorbed (hr : Int) (w h : Nat) (hne : hr ≠ S_OK) :
    SurfaceEffect.logBoundsFailed ∈ SetSurfaceSize true hr true w h ∧
      SurfaceEffect.surfaceSizeChanged w h ∈ SetSurfaceSize true hr true w h := by
  simp [SetSurfaceSize, hne]

/-- C2 witness: the amended claim at `put_Bounds` result 1, size 2×3. -/
theorem C2_put_Bounds_failure_absorbed_witness :
    SurfaceEffect.logBoundsFailed ∈ SetSurfaceSize true 1 true 2 3 ∧
      SurfaceEffect.surfaceSizeChanged 2 3 ∈ SetSurfaceSize true 1 true 2 3 :=
  C2_put_Bounds_failure_absorbed 1 2 3 (by decide)

/-- C3: `ClearCookies` returns true iff the DevTools-protocol call returned
`S_OK`; `SetUserAgent` returns true iff `settings2_` is available and
`put_UserAgent` returned `S_OK`; otherwise each returns false. -/
theorem C3_result_codes_propagated (hr : Int) (avail : Bool) (hr2 : Int) :
    (ClearCookies hr = true ↔ hr = S_OK) ∧
      (SetUserAgent avail hr2 = true ↔ avail = true ∧ hr2 = S_OK) := by
  constructor
  · simp [ClearCookies]
  · cases avail <;> simp [SetUserAgent]

/-- C4: for each of `Primary`, `Secondary`, `Tertiary` and every `is_down`,
`SetPointerButtonState` sets the left/right/middle flag to `is_down` and
sends exactly one mouse event whose kind is the matching button-down kind
when `is_down` and button-up kind otherwise, with the updated virtual-key
state and the last cursor position. -/
theorem C4_pointer_button_forwarded (s : WebviewState) (is_down : Bool) :
    ((SetPointerButtonState s .Primary is_down).1.virtual_keys_
        = s.virtual_keys_.set_isLeftButtonDown is_down ∧
      (SetPointerButtonState s .Primary is_down).2 =
        [{ eventKind := if is_down then MOUSE_EVENT_KIND_LEFT_BUTTON_DOWN
              else MOUSE_EVENT_KIND_LEFT_BUTTON_UP,
           virtualKeys := (s.virtual_keys_.set_isLeftButtonDown is_down).state,
           mouseData := 0, point := s.last_cursor_pos_ }]) ∧
    ((SetPointerButtonState s .Secondary is_down).1.virtual_keys_
        = s.virtual_keys_.set_isRightButtonDown is_down ∧
      (SetPointerButtonState s .Secondary is_down).2 =
        [{ eventKind := if is_down then MOUSE_EVENT_KIND_RIGHT_BUTTON_DOWN
              else MOUSE_EVENT_KIND_RIGHT_BUTTON_UP,
           virtualKeys := (s.virtual_keys_.set_isRightButtonDown is_down).state,
           mouseData := 0, point := s.last_cursor_pos_ }]) ∧
    ((SetPointerButtonState s .Tertiary is_down).1.virtual_keys_
        = s.virtual_keys_.set_isMiddleButtonDown is_down ∧
      (SetPointerButtonState s .Tertiary is_down).2 =
        [{ eventKind := if is_down then MOUSE_EVENT_KIND_MIDDLE_BUTTON_DOWN
              else MOUSE_EVENT_KIND_MIDDLE_BUTTON_UP,
           virtualKeys := (s.virtual_keys_.set_isMiddleButtonDown is_down).state,
           mouseData := 0, point := s.last_cursor_pos_ }]) :=
  ⟨⟨rfl, rfl⟩, ⟨rfl, rfl⟩, ⟨rfl, rfl⟩⟩

/-- C5: `SetScrollDelta` forwards a horizontal scroll with `delta_x` exactly
when `delta_x ≠ 0` and then a vertical scroll with `delta_y` exactly when
`delta_y ≠ 0`; when both are zero it sends no events. -/
theorem C5_scroll_delta_dispatch (s : WebviewState) (dx dy : ℚ) :
    (SetScrollDelta s dx dy).2 =
        (if dx ≠ 0 then (SendScroll s dx true).2 else [])
          ++ (if dy ≠ 0 then (SendScroll s dy false).2 else []) ∧
      (SetScrollDelta s 0 0).2 = ([] : List MouseEvent) := by
  constructor
  · by_cases hdx : dx = 0 <;> by_cases hdy : dy = 0 <;>
      simp [SetScrollDelta, SendScroll, hdx, hdy]
  · simp [SetScrollDelta]

/-- C6: a `ContentLoading` event invokes the loading-state callback with
`Loading`, `NavigationCompleted` invokes it with `NavigationCompleted`,
`GotFocus` invokes the focus callback with `true`, `LostFocus` with `false`;
each handler returns `S_OK`. -/
theorem C6_load_state_and_focus_translated :
    contentLoadingHandler true
        = (S_OK, [HostEvent.loadingStateChanged WebviewLoadingState.Loading]) ∧
      navigationCompletedHandler true
        = (S_OK,
           [HostEvent.loadingStateChanged WebviewLoadingState.NavigationCompleted]) ∧
      gotFocusHandler true = (S_OK, [HostEvent.focusChanged true]) ∧
      lostFocusHandler true = (S_OK, [HostEvent.focusChanged false]) ∧
      (∀ cb : Bool,
        (contentLoadingHandler cb).1 = S_OK ∧
          (navigationCompletedHandler cb).1 = S_OK ∧
          (gotFocusHandler cb).1 = S_OK ∧ (lostFocusHandler cb).1 = S_OK) :=
  ⟨rfl, rfl, rfl, rfl, fun _ => ⟨rfl, rfl, rfl, rfl⟩⟩

/-- C7: `SetCursorPos` truncates `x` and `y` to integers, records the point
as the last cursor position, leaves the virtual keys unchanged, and sends
exactly one mouse-move event at that point with the current virtual-key
state and zero wheel data. -/
theorem C7_cursor_pos_truncates_and_moves (s : WebviewState) (x y : ℚ) :
    (SetCursorPos s x y).1.last_cursor_pos_ = { x := truncQ x, y := truncQ y } ∧
      (SetCursorPos s x y).1.virtual_keys_ = s.virtual_keys_ ∧
      (SetCursorPos s x y).2 =
        [{ eventKind := MOUSE_EVENT_KIND_MOVE, virtualKeys := s.virtual_keys_.state,
           mouseData := 0, point := { x := truncQ x, y := truncQ y } }] :=
  ⟨rfl, rfl, rfl⟩

/-- C8: every registered handler returns `S_OK` and invokes nothing on the
host when its callback is unset, for any native getter results. -/
theorem C8_null_callbacks_never_invoked (hrS hrT hrC : Int) (url title : String)
    (cursor : Int) :
    contentLoadingHandler false = (S_OK, []) ∧
      navigationCompletedHandler false = (S_OK, []) ∧
      sourceChangedHandler false hrS url = (S_OK, []) ∧
      documentTitleChangedHandler false hrT title = (S_OK, []) ∧
      cursorChangedHandler false hrC cursor = (S_OK, []) ∧
      gotFocusHandler false = (S_OK, []) ∧
      lostFocusHandler false = (S_OK, []) :=
  ⟨rfl, rfl, rfl, rfl, rfl, rfl, rfl⟩

/-- C9: every mouse event of `SetPointerButtonState`, `SendScroll` and
`SetScrollDelta` is sent at the current `last_cursor_pos_`, those operations
leave that field unchanged, and over any trace of operations the field ends
at the position recorded by the most recent `setCursorPos` (or the starting
position when there is none). -/
theorem C9_last_cursor_pos_anchor (s : WebviewState) (b : WebviewPointerButton)
    (d : Bool) (delta : ℚ) (horiz : Bool) (dx dy : ℚ) (s0 : WebviewState)
    (ops : List Op) :
    (SetPointerButtonState s b d).1.last_cursor_pos_ = s.last_cursor_pos_ ∧
      (SetPointerButtonState s b d).2.map MouseEvent.point = [s.last_cursor_pos_] ∧
      (SendScroll s delta horiz).1.last_cursor_pos_ = s.last_cursor_pos_ ∧
      (SendScroll s delta horiz).2.map MouseEvent.point =
        [s.last_cursor_pos_, s.last_cursor_pos_, s.last_cursor_pos_] ∧
      (SetScrollDelta s dx dy).1.last_cursor_pos_ = s.last_cursor_pos_ ∧
      (SetScrollDelta s dx dy).2.map MouseEvent.point =
        (SetScrollDelta s dx dy).2.map (fun _ => s.last_cursor_pos_) ∧
      (run s0 ops).last_cursor_pos_ = lastPos s0.last_cursor_pos_ ops :=
  ⟨setPointerButtonState_fst_pos s b d, setPointerButtonState_events_pos s b d,
   rfl, rfl, by rw [setScrollDelta_fst], setScrollDelta_events_pos s dx dy,
   run_last_cursor_pos ops s0⟩

/-- C10: for a button outside Primary/Secondary/Tertiary (the `default:`
branch), `SetPointerButtonState` leaves the virtual keys unchanged and still
sends one mouse event with event kind 0, the unchanged virtual-key state and
the last cursor position. -/
theorem C10_default_branch_kind_zero (s : WebviewState) (is_down : Bool) :
    (SetPointerButtonState s .None is_down).1.virtual_keys_ = s.virtual_keys_ ∧
      (SetPointerButtonState s .None is_down).2 =
        [{ eventKind := 0, virtualKeys := s.virtual_keys_.state, mouseData := 0,
           point := s.last_cursor_pos_ }] :=
  ⟨rfl, rfl⟩

end WebviewWindows
